import Mathlib

/-!
Shallow embedding of the admission-control core of simple-utcd
(`src/core/acl.cpp`, `src/core/rate_limiter.cpp`, `src/core/ddos_protection.cpp`
together with their headers), and proofs settling the frozen claims about it.

Modelling conventions, chosen once for the whole file:

* `uint64_t` values are embedded as `Nat`; arithmetic that can wrap in C++
  (token refill products and sums) is taken modulo `U64 = 2 ^ 64`.
* `uint32_t` values (IPv4 addresses and masks) are embedded as `Nat < 2 ^ 32`.
* `std::chrono::system_clock::time_point` is embedded as `Int`, counting
  nanoseconds (the tick unit of libstdc++ `system_clock` on Linux).  All
  operations receive the current time `t` explicitly instead of calling
  `now()`; mutexes serialize every C++ operation, so the sequential
  functional semantics is the faithful per-table semantics.
* The build target is a little-endian host (x86-64 / AArch64 Linux), so
  `htonl` and `ntohl` are the 32-bit byte swap `bswap32`.
* C++ code that can throw (`std::stoi` and its callers) is embedded in
  `Option`: `none` means an exception escapes, `some` is the normal result.
* `double` arithmetic is embedded as exact rational arithmetic over `ℚ`,
  and `std::sqrt` is passed as an explicit function parameter `sq : ℚ → ℚ`
  (every statement proved about the anomaly score holds for an arbitrary
  `sq`, in particular for the rounded binary64 square root).  The two
  floating-point literals `0.8` and `0.1` that occur in branches no claim
  touches are written as the rationals `4/5` and `1/10`; the binary64
  constants differ from them by a relative error below `2 ^ (-52)`.
-/

/-- `2 ^ 64`, the modulus of `uint64_t` arithmetic. -/
def U64 : Nat := 18446744073709551616

/-- 32-bit byte swap: the value of `htonl`/`ntohl` on a little-endian host. -/
def bswap32 (x : Nat) : Nat :=
  (x % 256) * 16777216 + (x / 256 % 256) * 65536 +
    (x / 65536 % 256) * 256 + (x / 16777216 % 256)

/-- Number of set bits, as computed by `__builtin_popcount` on a 32-bit
value: the sum of the 32 binary digits. -/
def popcount32 (x : Nat) : Nat :=
  (List.range 32).foldl (fun a i => a + x / 2 ^ i % 2) 0

/-- `RateLimiter::seconds_since` / elapsed whole seconds:
`duration_cast<seconds>(now - t)` clamped below at `0`
(`Int.toNat` performs exactly this clamp, and `Nat` division the
truncation of `duration_cast` on a non-negative difference). -/
def secondsSince (t past : Int) : Nat := (t - past).toNat / 1000000000

/-- `duration_cast<milliseconds>(b - a).count()`: truncating division of a
nanosecond difference (C++ integer division truncates toward zero, which is
`Int.div`). -/
def intervalMs (a b : Int) : Int := Int.tdiv (b - a) 1000000

/-- Association-list lookup, the embedding of `std::map::find`. -/
def lookupKey {α : Type} : List (String × α) → String → Option α
  | [], _ => none
  | (k, v) :: rest, key => if k = key then some v else lookupKey rest key

/-- Association-list insert-or-replace, the embedding of writing through
`std::map::operator[]` (an absent key is created). -/
def setEntry {α : Type} : List (String × α) → String → α → List (String × α)
  | [], key, v => [(key, v)]
  | (k, w) :: rest, key, v =>
      if k = key then (k, v) :: rest else (k, w) :: setEntry rest key v

/-! ## AccessList (`ACLManager`, `src/core/acl.cpp`) -/

namespace ACLManager

/-- `ACLAction` from `acl.hpp`. -/
inductive ACLAction where
  | ALLOW
  | DENY
deriving DecidableEq

/-- `ACLRule` from `acl.hpp`. -/
structure ACLRule where
  action : ACLAction
  network : String
  rule_descr : String
deriving DecidableEq

/-- The value of one dotted-quad octet, read left to right. -/
def octetVal (s : List Char) : Nat := s.foldl (fun a c => a * 10 + (c.toNat - 48)) 0

/-- Validity of one dotted-quad octet under glibc `inet_pton(AF_INET, ...)`:
non-empty, all decimal digits, no leading zero (except the octet `"0"`
itself), value at most 255. -/
def octetValid (s : List Char) : Bool :=
  !s.isEmpty && s.all (·.isDigit) && (s.length = 1 || s.headD '0' ≠ '0')
    && octetVal s ≤ 255

/-- Split a character list at every occurrence of `sep`
(the list analogue of `String.splitOn` for a single-character separator). -/
def splitOnChar (sep : Char) : List Char → List (List Char)
  | [] => [[]]
  | c :: rest =>
      let r := splitOnChar sep rest
      if c = sep then [] :: r
      else (c :: r.headD []) :: r.tail

/-- glibc `inet_pton(AF_INET, s, ...)` followed by `ntohl`: parses a strict
dotted-quad IPv4 address and yields its value as a host-order 32-bit number
`a*2^24 + b*2^16 + c*2^8 + d`; `none` models the return value 0 of
`inet_pton` (parse failure). -/
def parseIPv4 (s : String) : Option Nat :=
  match splitOnChar '.' s.toList with
  | [a, b, c, d] =>
      if octetValid a && octetValid b && octetValid c && octetValid d then
        some (octetVal a * 16777216 + octetVal b * 65536 + octetVal c * 256 + octetVal d)
      else none
  | _ => none

/-- `std::stoi` (base 10): skip leading whitespace, optional sign, then
decimal digits.  `none` models a thrown exception — `std::invalid_argument`
when no digit follows, `std::out_of_range` when the value leaves `int`
range.  Trailing non-digit characters are ignored, as in C++. -/
def stoi (s : String) : Option Int :=
  let cs := s.toList.dropWhile fun c =>
    c = ' ' || c = '\t' || c = '\n' || c = '\x0b' || c = '\x0c' || c = '\r'
  let signAndRest : Int × List Char :=
    match cs with
    | '+' :: r => (1, r)
    | '-' :: r => (-1, r)
    | r => (1, r)
  let ds := signAndRest.2.takeWhile (·.isDigit)
  if ds.isEmpty then none
  else
    let v : Int := signAndRest.1 * (octetVal ds : Int)
    if v < -2147483648 ∨ 2147483647 < v then none else some v

/-- The substring of `cidr` after the first `'/'` (C++
`cidr.substr(slash_pos + 1)`), given the `splitOn`-style decomposition. -/
def afterSlash (rest : List (List Char)) : String :=
  String.intercalate "/" (rest.map fun l => String.mk l)

/-- The mask value `(0xFFFFFFFF << (32 - plen)) & 0xFFFFFFFF` as a host-order
number.  For `plen = 0` the C++ shift count is 32, which is undefined
behaviour for a 32-bit operand; we model the x86/ARM result (shift count
taken mod 32, so the mask stays `0xFFFFFFFF`). -/
def maskHost (plen : Nat) : Nat :=
  if plen = 0 then 4294967295 else (4294967295 <<< (32 - plen)) % 4294967296

/-- `ACLManager::ip_to_uint32`: `inet_pton` followed by `ntohl`.  The C++
code ignores the `inet_pton` return value and reads an uninitialised
`sin_addr` when parsing fails; that unspecified value is modelled as 0.
Every verified claim applies this function only to addresses that parse. -/
def ip_to_uint32 (ip : String) : Nat := (parseIPv4 ip).getD 0

/-- `ACLManager::uint32_to_ip`: `htonl` then `inet_ntop`, i.e. plain
dotted-decimal printing of the four bytes, most significant first. -/
def uint32_to_ip (x : Nat) : String :=
  toString (x / 16777216 % 256) ++ "." ++ toString (x / 65536 % 256) ++ "." ++
    toString (x / 256 % 256) ++ "." ++ toString (x % 256)

/-- `ACLManager::is_valid_cidr`.  Outer `none` models a `std::stoi`
exception escaping (the C++ code calls `stoi` unguarded). -/
def is_valid_cidr (cidr : String) : Option Bool :=
  match splitOnChar '/' cidr.toList with
  | [_] => some (parseIPv4 cidr).isSome
  | ip :: rest =>
      if (parseIPv4 (String.mk ip)).isNone then some false
      else
        match stoi (afterSlash rest) with
        | none => none
        | some m => some (decide (0 ≤ m) && decide (m ≤ 32))
  | [] => some (parseIPv4 cidr).isSome

/-- `ACLManager::parse_cidr`.  Outer `none` models a `std::stoi` exception,
`some none` the `return false` branch, and `some (some (network, mask))`
success.  `network` is host order (`ip_to_uint32`); `mask` is the value of
`htonl(top-bits)`, i.e. byte-swapped on this little-endian host. -/
def parse_cidr (cidr : String) : Option (Option (Nat × Nat)) :=
  match splitOnChar '/' cidr.toList with
  | [_] => some (some (ip_to_uint32 cidr, bswap32 (maskHost 32)))
  | ip :: rest =>
      match stoi (afterSlash rest) with
      | none => none
      | some m =>
          if m < 0 ∨ 32 < m then some none
          else some (some (ip_to_uint32 (String.mk ip), bswap32 (maskHost m.toNat)))
  | [] => some (some (ip_to_uint32 cidr, bswap32 (maskHost 32)))

/-- `ACLManager::is_ip_in_network`: membership via
`(ip & mask) == (network & mask)` on the `parse_cidr` output. -/
def is_ip_in_network (ip cidr : String) : Option Bool :=
  match parse_cidr cidr with
  | none => none
  | some none => some false
  | some (some (network, mask)) =>
      some (decide (ip_to_uint32 ip &&& mask = network &&& mask))

/-- `ACLManager::matches_rule` as a total predicate: the result of
`is_ip_in_network` when it returns, `false` standing in for the (never
verified-against) exceptional case. -/
def matchesRule (ip : String) (r : ACLRule) : Bool :=
  (is_ip_in_network ip r.network).getD false

/-- The sort key of `ACLManager::compare_rules`:
`__builtin_popcount(ntohl(mask))` of the rule's parsed mask.  When
`parse_cidr` fails the C++ comparator reads unspecified values; rules in a
table built by `add_rule` always parse, and the fallback 0 is never
exercised by the proved statements. -/
def ruleSortKey (r : ACLRule) : Nat :=
  match parse_cidr r.network with
  | some (some (_, mask)) => popcount32 (bswap32 mask)
  | _ => 0

/-- `ACLManager::compare_rules`: ascending popcount of the mask. -/
def compare_rules (a b : ACLRule) : Int := (ruleSortKey a : Int) - (ruleSortKey b : Int)

/-- Insertion step of the sort used to model `std::sort` with the
`compare_rules(a, b) < 0` comparator. -/
def insertRule (r : ACLRule) : List ACLRule → List ACLRule
  | [] => [r]
  | x :: xs => if compare_rules r x < 0 then r :: x :: xs else x :: insertRule r xs

/-- `ACLManager::sort_rules`: `std::sort` by `compare_rules(a, b) < 0`.
`std::sort` is unspecified up to the order of equal keys; it is modelled by
insertion sort, a conforming implementation, and the verified property
(sortedness by key) is shared by every conforming implementation. -/
def sort_rules : List ACLRule → List ACLRule
  | [] => []
  | x :: xs => insertRule x (sort_rules xs)

/-- `ACLManager::add_rule`: validate, erase rules with the same literal
network string, append, re-sort.  `none` models a `std::stoi` exception
escaping from `is_valid_cidr`. -/
def add_rule (rules : List ACLRule) (rule : ACLRule) : Option (Bool × List ACLRule) :=
  match is_valid_cidr rule.network with
  | none => none
  | some false => some (false, rules)
  | some true =>
      some (true, sort_rules ((rules.filter fun r => decide (r.network ≠ rule.network)) ++ [rule]))

/-- The rule-evaluation loop of `ACLManager::is_denied`: first match wins,
default action otherwise; an exception from `matches_rule` propagates. -/
def is_denied_list (ip : String) (dflt : ACLAction) : List ACLRule → Option Bool
  | [] => some (decide (dflt = ACLAction.DENY))
  | r :: rest =>
      match is_ip_in_network ip r.network with
      | none => none
      | some true => some (decide (r.action = ACLAction.DENY))
      | some false => is_denied_list ip dflt rest

/-- The `ACLManager` table state used by `is_denied`/`is_allowed`. -/
structure ACLState where
  default_action : ACLAction
  rules : List ACLRule
deriving DecidableEq

/-- `ACLManager::is_denied`. -/
def is_denied (s : ACLState) (ip : String) : Option Bool :=
  is_denied_list ip s.default_action s.rules

/-- `ACLManager::is_allowed` = `!is_denied`. -/
def is_allowed (s : ACLState) (ip : String) : Option Bool :=
  (is_denied s ip).map (! ·)

end ACLManager

/-! ## RateLimiter (`src/core/rate_limiter.cpp`) -/

namespace RateLimiter

/-- `RateLimitResult` from `rate_limiter.hpp`, with its default-constructed
values `allowed = true, remaining = 0, reset_after_seconds = 0`. -/
structure RateLimitResult where
  allowed : Bool := true
  remaining : Nat := 0
  reset_after_seconds : Nat := 0
  message : String := ""
deriving DecidableEq

/-- `RateLimiter::ClientState` from `rate_limiter.hpp`. -/
structure ClientState where
  tokens : Nat
  rate : Nat
  burst : Nat
  last_refill : Int
  active_connections : Nat
deriving DecidableEq

/-- The default-constructed `ClientState` (`tokens = rate = burst = 0`,
`last_refill = now()` at construction time `t`). -/
def defaultClientState (t : Int) : ClientState :=
  { tokens := 0, rate := 0, burst := 0, last_refill := t, active_connections := 0 }

/-- The whole `RateLimiter` object state. -/
structure RLState where
  enabled : Bool
  default_rate : Nat
  default_burst : Nat
  window_seconds : Nat
  global_rate : Nat
  global_burst : Nat
  global_tokens : Nat
  global_last_refill : Int
  clients : List (String × ClientState)
deriving DecidableEq

/-- The `RateLimiter` constructor state (disabled, defaults 100/20/60,
global 1000/200, global bucket full), constructed at time `t`. -/
def mkRateLimiter (t : Int) : RLState :=
  { enabled := false, default_rate := 100, default_burst := 20, window_seconds := 60,
    global_rate := 1000, global_burst := 200, global_tokens := 200,
    global_last_refill := t, clients := [] }

/-- The refilled global token count computed by `check_global_limit` at
time `t` before the consume step: add `global_rate * elapsed` (with
`uint64_t` wrap-around), cap at `global_burst`; no refill when no whole
second has elapsed. -/
def postRefillGlobal (s : RLState) (t : Int) : Nat :=
  if 0 < secondsSince t s.global_last_refill then
    min s.global_burst
      ((s.global_tokens + s.global_rate * secondsSince t s.global_last_refill % U64) % U64)
  else s.global_tokens

/-- The `global_last_refill` timestamp after the refill step of
`check_global_limit` (re-stamped only when at least one whole second has
elapsed). -/
def postRefillStamp (s : RLState) (t : Int) : Int :=
  if 0 < secondsSince t s.global_last_refill then t else s.global_last_refill

/-- `RateLimiter::check_global_limit`: refill the global bucket, then
consume one token if available. -/
def check_global_limit (s : RLState) (t : Int) : RateLimitResult × RLState :=
  if s.enabled = false then ({}, s)
  else if 0 < postRefillGlobal s t then
    ({ allowed := true, remaining := postRefillGlobal s t - 1,
       reset_after_seconds := s.window_seconds },
     { s with global_tokens := postRefillGlobal s t - 1,
              global_last_refill := postRefillStamp s t })
  else
    ({ allowed := false, remaining := 0, reset_after_seconds := s.window_seconds,
       message := "Global rate limit exceeded" },
     { s with global_tokens := postRefillGlobal s t,
              global_last_refill := postRefillStamp s t })

/-- `RateLimiter::refill_tokens` applied to one client bucket: add
`rate * elapsed` (with `uint64_t` wrap-around), cap at `burst`; the C++
function always returns `true`, so its `false` branch in `check_limit` is
dead code and only the state update is modelled. -/
def refillClient (st : ClientState) (rate burst : Nat) (t : Int) : ClientState :=
  if 0 < secondsSince t st.last_refill then
    { st with
        tokens := min burst ((st.tokens + rate * secondsSince t st.last_refill % U64) % U64),
        last_refill := t }
  else st

/-- The reconfigure step of `check_limit`: a `(rate, burst)` pair different
from the stored one resets the bucket to full and re-stamps it. -/
def reconfigClient (st0 : ClientState) (rps b : Nat) (t : Int) : ClientState :=
  if st0.rate ≠ rps ∨ st0.burst ≠ b then
    { st0 with rate := rps, burst := b, tokens := b, last_refill := t }
  else st0

/-- The client bucket as it stands after the lookup-or-create, reconfigure
and refill steps of `check_limit`, just before the consume step. -/
def clientAfter (s1 : RLState) (t : Int) (client_id : String) (rps b : Nat) : ClientState :=
  refillClient
    (reconfigClient ((lookupKey s1.clients client_id).getD (defaultClientState t)) rps b t)
    rps b t

/-- The decrement of `RateLimiter::consume_token` (only ever applied under
the guard `tokens > 0`). -/
def consumeClient (st : ClientState) : ClientState := { st with tokens := st.tokens - 1 }

/-- The per-client phase of `check_limit` (everything after the global
gate): consume one token from the prepared bucket if available; on failure
the C++ code reports `remaining = state.tokens` (necessarily 0); in both
cases the prepared bucket is stored back into the map. -/
def clientPhase (s1 : RLState) (t : Int) (client_id : String) (rps b : Nat) :
    RateLimitResult × RLState :=
  if 0 < (clientAfter s1 t client_id rps b).tokens then
    ({ allowed := true, remaining := (clientAfter s1 t client_id rps b).tokens - 1,
       reset_after_seconds := s1.window_seconds },
     { s1 with clients := setEntry s1.clients client_id
                 (consumeClient (clientAfter s1 t client_id rps b)) })
  else
    ({ allowed := false, remaining := (clientAfter s1 t client_id rps b).tokens,
       reset_after_seconds := s1.window_seconds, message := "Rate limit exceeded" },
     { s1 with clients := setEntry s1.clients client_id (clientAfter s1 t client_id rps b) })

/-- `RateLimiter::check_limit(client_id, requests_per_second, burst)`:
disabled bypass; global gate first (its refilled-and-consumed state is kept
whatever happens next); then the per-client phase. -/
def check_limit (s : RLState) (t : Int) (client_id : String) (requests_per_second burst : Nat) :
    RateLimitResult × RLState :=
  if s.enabled = false then ({}, s)
  else if (check_global_limit s t).1.allowed = false then check_global_limit s t
  else clientPhase (check_global_limit s t).2 t client_id requests_per_second burst

/-- `RateLimiter::check_limit(client_id)`: the one-argument overload using
the configured defaults. -/
def check_limit_default (s : RLState) (t : Int) (client_id : String) :
    RateLimitResult × RLState :=
  check_limit s t client_id s.default_rate s.default_burst

/-- `RateLimiter::check_connection_limit`: disabled bypass, else compare the
client's active-connection counter (creating the bucket through
`operator[]`) against `max_connections`. -/
def check_connection_limit (s : RLState) (t : Int) (client_id : String) (max_connections : Nat) :
    Bool × RLState :=
  if s.enabled = false then (true, s)
  else
    let st := (lookupKey s.clients client_id).getD (defaultClientState t)
    (decide (st.active_connections < max_connections),
     { s with clients := setEntry s.clients client_id st })

end RateLimiter

/-! ## ThreatGuard (`DDoSProtection`, `src/core/ddos_protection.cpp`) -/

namespace DDoSProtection

/-- `DDoSStatus` from `ddos_protection.hpp`. -/
inductive DDoSStatus where
  | NORMAL
  | WARNING
  | ATTACK_DETECTED
  | BLOCKED
deriving DecidableEq

/-- `DDoSResult` from `ddos_protection.hpp`, with its default-constructed
values `allowed = true, status = NORMAL, block_duration_seconds = 0`. -/
structure DDoSResult where
  allowed : Bool := true
  status : DDoSStatus := DDoSStatus.NORMAL
  reason : String := ""
  block_duration_seconds : Nat := 0
deriving DecidableEq

/-- `DDoSProtection::ClientStats` from `ddos_protection.hpp`.  The
`total_requests` counter is modelled as an unbounded `Nat`: it is only ever
incremented by one, so `uint64_t` wrap-around needs `2^64` operations. -/
structure ClientStats where
  request_times : List Int
  connection_times : List Int
  total_requests : Nat
  total_connections : Nat
  first_seen : Int
  last_seen : Int
  anomaly_score : ℚ
deriving DecidableEq

/-- The default-constructed `ClientStats` (counters 0, `first_seen` and
`last_seen` set to `now()` at construction time `t`). -/
def defaultClientStats (t : Int) : ClientStats :=
  { request_times := [], connection_times := [], total_requests := 0,
    total_connections := 0, first_seen := t, last_seen := t, anomaly_score := 0 }

/-- `DDoSProtection::BlockEntry` from `ddos_protection.hpp`. -/
structure BlockEntry where
  blocked_at : Int
  expires_at : Int
  reason : String
deriving DecidableEq

/-- The whole `DDoSProtection` object state. -/
structure DDoSState where
  enabled : Bool
  threshold : Nat
  block_duration_seconds : Nat
  connection_limit : Nat
  connection_window_seconds : Nat
  anomaly_threshold : ℚ
  total_blocked : Nat
  client_stats : List (String × ClientStats)
  blocked_clients : List (String × BlockEntry)
deriving DecidableEq

/-- The `DDoSProtection` constructor state (disabled, threshold 1000,
block duration 3600 s, connection limit 10, window 60 s, anomaly
threshold 3.0). -/
def mkDDoSProtection : DDoSState :=
  { enabled := false, threshold := 1000, block_duration_seconds := 3600,
    connection_limit := 10, connection_window_seconds := 60, anomaly_threshold := 3,
    total_blocked := 0, client_stats := [], blocked_clients := [] }

/-- `DDoSProtection::is_expired`: `time < now()`. -/
def is_expired (time t : Int) : Bool := decide (time < t)

/-- `DDoSProtection::is_blocked`: a block entry must exist and not be
expired. -/
def is_blocked (s : DDoSState) (client_ip : String) (t : Int) : Bool :=
  match lookupKey s.blocked_clients client_ip with
  | none => false
  | some e => !is_expired e.expires_at t

/-- `DDoSProtection::block_client`: insert or overwrite the block entry,
`expires_at = blocked_at + seconds(duration)`. -/
def block_client (s : DDoSState) (client_ip : String) (duration_seconds : Nat) (t : Int) :
    DDoSState :=
  let entry : BlockEntry :=
    { blocked_at := t, expires_at := t + (duration_seconds : Int) * 1000000000,
      reason := "DDoS protection triggered" }
  { s with blocked_clients := setEntry s.blocked_clients client_ip entry }

/-- `DDoSProtection::cleanup_old_entries`: drop timestamps older than
`now() - 2 * connection_window_seconds` from both per-IP time sequences. -/
def cleanup_old_entries (w : Nat) (t : Int) (st : ClientStats) : ClientStats :=
  let cutoff := t - ((w : Int) * 2) * 1000000000
  { st with request_times := st.request_times.filter fun x => decide (cutoff ≤ x),
            connection_times := st.connection_times.filter fun x => decide (cutoff ≤ x) }

/-- `DDoSProtection::record_request`: append the timestamp, bump the
counter, update `last_seen` (and `first_seen` on the first request), prune
old entries. -/
def record_request (s : DDoSState) (client_ip : String) (t : Int) : DDoSState :=
  let st0 := (lookupKey s.client_stats client_ip).getD (defaultClientStats t)
  let st1 := { st0 with request_times := st0.request_times ++ [t],
                        total_requests := st0.total_requests + 1, last_seen := t }
  let st2 := if st1.total_requests = 1 then { st1 with first_seen := t } else st1
  let st3 := cleanup_old_entries s.connection_window_seconds t st2
  { s with client_stats := setEntry s.client_stats client_ip st3 }

/-- `DDoSProtection::record_connection`. -/
def record_connection (s : DDoSState) (client_ip : String) (t : Int) : DDoSState :=
  let st0 := (lookupKey s.client_stats client_ip).getD (defaultClientStats t)
  let st1 := { st0 with connection_times := st0.connection_times ++ [t],
                        total_connections := st0.total_connections + 1, last_seen := t }
  let st2 := if st1.total_connections = 1 then { st1 with first_seen := t } else st1
  let st3 := cleanup_old_entries s.connection_window_seconds t st2
  { s with client_stats := setEntry s.client_stats client_ip st3 }

/-- The consecutive inter-arrival intervals of a timestamp sequence, in
milliseconds (the loop `for i in 1 .. n-1: interval_i = ms(t_i - t_(i-1))`). -/
def intervalsMs (times : List Int) : List Int :=
  (times.zip times.tail).map fun p => intervalMs p.1 p.2

/-- `DDoSProtection::calculate_request_rate`: the number of request
timestamps at or after `now() - seconds(connection_window_seconds)`. -/
def calculate_request_rate (w : Nat) (st : ClientStats) (t : Int) : Nat :=
  if st.request_times.isEmpty then 0
  else st.request_times.countP fun x => decide (t - (w : Int) * 1000000000 ≤ x)

/-- `DDoSProtection::get_request_rate_for_ip`. -/
def get_request_rate_for_ip (s : DDoSState) (client_ip : String) (t : Int) : Nat :=
  match lookupKey s.client_stats client_ip with
  | none => 0
  | some st => calculate_request_rate s.connection_window_seconds st t

/-- `DDoSProtection::calculate_anomaly_score`, with the `double`
accumulations carried out exactly over `ℚ` and `std::sqrt` supplied as the
parameter `sq`: mean of the inter-arrival intervals (sum divided by
`size - 1`), population-style variance of those intervals (squared
deviations divided by `size - 1`, the number of intervals), and score
`(rate / mean) * (1 / (1 + stddev))` when the mean is positive. -/
def calculate_anomaly_score (sq : ℚ → ℚ) (w : Nat) (st : ClientStats) (t : Int) : ℚ :=
  if st.total_requests = 0 then 0
  else
    let rate := calculate_request_rate w st t
    if st.request_times.length < 2 then 0
    else
      let n1 : ℚ := ((st.request_times.length - 1 : Nat) : ℚ)
      let mean_interval := (((intervalsMs st.request_times).map fun iv => (iv : ℚ)).sum) / n1
      let variance :=
        (((intervalsMs st.request_times).map fun iv => ((iv : ℚ) - mean_interval) ^ 2).sum) / n1
      let stddev := sq variance
      if 0 < mean_interval then ((rate : ℚ) / mean_interval) * (1 / (1 + stddev)) else 0

/-- `DDoSProtection::is_anomalous_pattern`: with at least 10 samples, mean
and population variance of the inter-arrival intervals; bot-like when
`stddev < mean * 0.1` and `mean < 100` ms. -/
def is_anomalous_pattern (sq : ℚ → ℚ) (st : ClientStats) : Bool :=
  if st.request_times.length < 10 then false
  else
    let ivs := intervalsMs st.request_times
    if ivs.isEmpty then false
    else
      let n : ℚ := (ivs.length : ℚ)
      let mean := ((ivs.map fun iv => (iv : ℚ)).sum) / n
      let variance := ((ivs.map fun iv => ((iv : ℚ) - mean) ^ 2).sum) / n
      let stddev := sq variance
      decide (stddev < mean * (1 / 10)) && decide (mean < 100)

/-- `DDoSProtection::detect_anomaly`: recompute and store the anomaly score
for the IP, then compare against the threshold or the bot-like pattern. -/
def detect_anomaly (sq : ℚ → ℚ) (s : DDoSState) (client_ip : String) (t : Int) :
    Bool × DDoSState :=
  match lookupKey s.client_stats client_ip with
  | none => (false, s)
  | some st =>
      let score := calculate_anomaly_score sq s.connection_window_seconds st t
      let st1 := { st with anomaly_score := score }
      (decide (s.anomaly_threshold < score) || is_anomalous_pattern sq st1,
       { s with client_stats := setEntry s.client_stats client_ip st1 })

/-- `DDoSProtection::get_connection_count`. -/
def get_connection_count (s : DDoSState) (client_ip : String) : Nat :=
  match lookupKey s.client_stats client_ip with
  | none => 0
  | some st => st.total_connections

/-- `DDoSProtection::check_request`: disabled bypass; blocked fast path;
record; rate gate against `threshold`; anomaly gate; warning above 80% of
the threshold. -/
def check_request (sq : ℚ → ℚ) (s : DDoSState) (client_ip : String) (t : Int) :
    DDoSResult × DDoSState :=
  if s.enabled = false then ({}, s)
  else if is_blocked s client_ip t then
    ({ allowed := false, status := DDoSStatus.BLOCKED, reason := "IP address is blocked" }, s)
  else
    let s1 := record_request s client_ip t
    let rate := get_request_rate_for_ip s1 client_ip t
    if s1.threshold < rate then
      let s2 := block_client s1 client_ip s1.block_duration_seconds t
      ({ allowed := false, status := DDoSStatus.ATTACK_DETECTED,
         reason := "Request rate exceeded threshold",
         block_duration_seconds := s1.block_duration_seconds },
       { s2 with total_blocked := s2.total_blocked + 1 })
    else
      let anom := detect_anomaly sq s1 client_ip t
      if anom.1 then
        let s3 := block_client anom.2 client_ip anom.2.block_duration_seconds t
        ({ allowed := false, status := DDoSStatus.ATTACK_DETECTED,
           reason := "Anomalous traffic pattern detected",
           block_duration_seconds := anom.2.block_duration_seconds },
         { s3 with total_blocked := s3.total_blocked + 1 })
      else if (s1.threshold : ℚ) * (4 / 5) < (rate : ℚ) then
        ({ allowed := true, status := DDoSStatus.WARNING,
           reason := "Request rate approaching threshold" }, anom.2)
      else
        ({ allowed := true, status := DDoSStatus.NORMAL }, anom.2)

/-- `DDoSProtection::check_connection`: disabled bypass; blocked fast path;
connection-count cap (blocking on exceedance); otherwise record the
connection. -/
def check_connection (s : DDoSState) (client_ip : String) (t : Int) :
    DDoSResult × DDoSState :=
  if s.enabled = false then ({}, s)
  else if is_blocked s client_ip t then
    ({ allowed := false, status := DDoSStatus.BLOCKED, reason := "IP address is blocked" }, s)
  else
    let connections := get_connection_count s client_ip
    if s.connection_limit ≤ connections then
      let s2 := block_client s client_ip s.block_duration_seconds t
      ({ allowed := false, status := DDoSStatus.ATTACK_DETECTED,
         reason := "Connection limit exceeded",
         block_duration_seconds := s.block_duration_seconds },
       { s2 with total_blocked := s2.total_blocked + 1 })
    else
      ({ allowed := true, status := DDoSStatus.NORMAL }, record_connection s client_ip t)

end DDoSProtection

/-! ## Definitions used only by the claim statements -/

/-- The anomaly score as worded by the specification (for comparison with
`DDoSProtection.calculate_anomaly_score`): 0 with fewer than 2 recorded
timestamps; otherwise, with `r` the count of requests with timestamp
`≥ now − window`, the mean and population-style variance of the consecutive
inter-arrival intervals in milliseconds (sums divided by the number of
intervals), and `stddev = sqrt(variance)`, the score is
`(r / mean_interval) × (1 / (1 + stddev))` when `mean_interval > 0` and 0
otherwise. -/
def anomalyScoreSpec (sq : ℚ → ℚ) (w : Nat) (st : DDoSProtection.ClientStats) (t : Int) : ℚ :=
  if st.request_times.length < 2 then 0
  else
    let r : ℚ := ((st.request_times.countP fun x => decide (t - (w : Int) * 1000000000 ≤ x) : Nat) : ℚ)
    let ivs := DDoSProtection.intervalsMs st.request_times
    let mean_interval := ((ivs.map fun iv => (iv : ℚ)).sum) / ((ivs.length : Nat) : ℚ)
    let variance := ((ivs.map fun iv => ((iv : ℚ) - mean_interval) ^ 2).sum) / ((ivs.length : Nat) : ℚ)
    let stddev := sq variance
    if 0 < mean_interval then (r / mean_interval) * (1 / (1 + stddev)) else 0

/-- The token-bound invariant of claim C1: every client bucket holds at
most its configured burst, and the global bucket at most the global burst
(`Nat` counts make non-negativity intrinsic: the only decrement in the code
is guarded by `tokens > 0`, so no `uint64_t` underflow can occur). -/
def TokenBoundsInv (s : RateLimiter.RLState) : Prop :=
  s.global_tokens ≤ s.global_burst ∧ ∀ kv ∈ s.clients, kv.2.tokens ≤ kv.2.burst

/-- Run a sequence of `check_limit` calls, each given as
`(now, client_id, rate, burst)`, threading the limiter state. -/
def runCheckLimits (s : RateLimiter.RLState) : List (Int × String × Nat × Nat) →
    RateLimiter.RLState
  | [] => s
  | c :: rest => runCheckLimits (RateLimiter.check_limit s c.1 c.2.1 c.2.2.1 c.2.2.2).2 rest

/-- The limiter state after `n` consecutive `check_limit` calls with the
same timestamp, client and parameters. -/
def iterateCheckLimit (s : RateLimiter.RLState) (t : Int) (client_id : String) (r b : Nat) :
    Nat → RateLimiter.RLState
  | 0 => s
  | n + 1 =>
      (RateLimiter.check_limit (iterateCheckLimit s t client_id r b n) t client_id r b).2

/-! ## Helper lemmas -/

theorem lookupKey_setEntry_self {α : Type} (l : List (String × α)) (k : String) (v : α) :
    lookupKey (setEntry l k v) k = some v := by
  induction l with
  | nil => simp [setEntry, lookupKey]
  | cons kv rest ih =>
      by_cases h : kv.1 = k
      · simp [setEntry, lookupKey, h]
      · simp [setEntry, lookupKey, h, ih]

theorem mem_setEntry {α : Type} {l : List (String × α)} {k : String} {v : α}
    {kv : String × α} (h : kv ∈ setEntry l k v) : kv ∈ l ∨ kv = (k, v) := by
  induction l with
  | nil => simp [setEntry] at h; simp [h]
  | cons hd rest ih =>
      by_cases hk : hd.1 = k
      · simp [setEntry, hk] at h
        rcases h with h | h
        · right; rw [h, ← hk]
        · left; simp [h]
      · simp [setEntry, hk] at h
        rcases h with h | h
        · left; simp [h]
        · rcases ih h with h2 | h2
          · left; simp [h2]
          · right; exact h2

theorem lookupKey_mem {α : Type} {l : List (String × α)} {k : String} {v : α}
    (h : lookupKey l k = some v) : (k, v) ∈ l := by
  induction l with
  | nil => simp [lookupKey] at h
  | cons kv rest ih =>
      obtain ⟨k1, v1⟩ := kv
      by_cases hk : k1 = k
      · simp [lookupKey, hk] at h
        simp [hk, h]
      · simp [lookupKey, hk] at h
        exact List.mem_cons_of_mem _ (ih h)

/-! ## C6 — block-table lookup and lazy expiry -/

/-- C6 (counterexample): the claim "`is_blocked(ip)` returns true iff a
block entry for ip exists and `now < expires_at`" fails at the boundary
instant `now = expires_at`: with an entry whose `expires_at` is exactly
`now`, `is_blocked` returns `true` (the code tests `is_expired`, i.e.
`expires_at < now`), although `now < expires_at` is false. -/
theorem C6_is_blocked_boundary_counterexample :
    DDoSProtection.is_blocked
      { DDoSProtection.mkDDoSProtection with
          blocked_clients := [("1.2.3.4", ⟨0, 100, "r"⟩)] } "1.2.3.4" 100 = true ∧
    lookupKey [(("1.2.3.4" : String), (⟨0, 100, "r"⟩ : DDoSProtection.BlockEntry))]
      "1.2.3.4" = some ⟨0, 100, "r"⟩ ∧
    ¬ ((100 : Int) < 100) := by
  refine ⟨by decide, by decide, by decide⟩

/-- C6 (amended): `is_blocked(ip)` returns true iff a block entry for ip
exists and `now ≤ expires_at` (non-strict at the boundary); in particular
entries past expiry that are still in the table are reported as not
blocked, because the lookup re-checks expiry against `now`. -/
theorem C6_is_blocked_iff_live_entry (s : DDoSProtection.DDoSState) (ip : String) (t : Int) :
    DDoSProtection.is_blocked s ip t = true ↔
      ∃ e, lookupKey s.blocked_clients ip = some e ∧ t ≤ e.expires_at := by
  unfold DDoSProtection.is_blocked
  cases h : lookupKey s.blocked_clients ip with
  | none => simp
  | some e => simp [DDoSProtection.is_expired, not_lt]

/-! ## C3 — CIDR parsing and membership -/

/-- C3 (code evaluated at the failing input): `parse_cidr("10.0.0.0/8")`
yields the mask `0x000000FF = 255` — `htonl` applied to the host-order mask
byte-swaps it on this little-endian host — instead of the top-8-bits mask
`0xFF000000 = 4278190080` the claim requires, and consequently
`is_ip_in_network("10.0.0.5", "10.0.0.0/8")` is `false` although
`(ip & 0xFF000000) == (network & 0xFF000000)` holds (third conjunct). -/
theorem C3_parse_cidr_mask_byte_swapped :
    ACLManager.parse_cidr "10.0.0.0/8" = some (some (167772160, 255)) ∧
    ACLManager.is_ip_in_network "10.0.0.5" "10.0.0.0/8" = some false ∧
    ACLManager.ip_to_uint32 "10.0.0.5" &&& 4278190080 =
      ACLManager.ip_to_uint32 "10.0.0.0" &&& 4278190080 := by
  refine ⟨by decide, by decide, by decide⟩

/-! ## C5 — add_rule failure semantics -/

/-- C5 (code evaluated at the failing inputs): on `"1.2.3.4/abc"` the
unguarded `std::stoi` inside `is_valid_cidr` throws (`= none`), so
`add_rule` does not deliver the boolean `false` the claim requires; and on
`"1.2.3.4/24x"` — not of the form `a.b.c.d/0..32` — `stoi` parses the
leading `24` and `add_rule` returns `true` and mutates the table. -/
theorem C5_add_rule_throws_and_accepts_garbage :
    ACLManager.add_rule [] ⟨ACLManager.ACLAction.ALLOW, "1.2.3.4/abc", ""⟩ = none ∧
    ACLManager.add_rule [] ⟨ACLManager.ACLAction.ALLOW, "1.2.3.4/24x", ""⟩ =
      some (true, [⟨ACLManager.ACLAction.ALLOW, "1.2.3.4/24x", ""⟩]) := by
  refine ⟨by decide, by decide⟩

/-! ## C9 — disabled bypass -/

/-- C9: with a component disabled, every admission call — `check_limit`,
`check_global_limit` and `check_connection_limit` of the `RateLimiter`,
`check_request` and `check_connection` of `DDoSProtection` — returns an
allowed result and returns the component state unchanged. -/
theorem C9_disabled_bypass :
    (∀ (s : RateLimiter.RLState) (t : Int) (client_id : String) (r b : Nat),
        s.enabled = false →
        (RateLimiter.check_limit s t client_id r b).1.allowed = true ∧
        (RateLimiter.check_limit s t client_id r b).2 = s) ∧
    (∀ (s : RateLimiter.RLState) (t : Int), s.enabled = false →
        (RateLimiter.check_global_limit s t).1.allowed = true ∧
        (RateLimiter.check_global_limit s t).2 = s) ∧
    (∀ (s : RateLimiter.RLState) (t : Int) (client_id : String) (m : Nat),
        s.enabled = false →
        (RateLimiter.check_connection_limit s t client_id m).1 = true ∧
        (RateLimiter.check_connection_limit s t client_id m).2 = s) ∧
    (∀ (sq : ℚ → ℚ) (s : DDoSProtection.DDoSState) (ip : String) (t : Int),
        s.enabled = false →
        (DDoSProtection.check_request sq s ip t).1.allowed = true ∧
        (DDoSProtection.check_request sq s ip t).2 = s) ∧
    (∀ (s : DDoSProtection.DDoSState) (ip : String) (t : Int),
        s.enabled = false →
        (DDoSProtection.check_connection s ip t).1.allowed = true ∧
        (DDoSProtection.check_connection s ip t).2 = s) := by
  refine ⟨?_, ?_, ?_, ?_, ?_⟩
  · intro s t client_id r b h
    simp [RateLimiter.check_limit, h]
  · intro s t h
    simp [RateLimiter.check_global_limit, h]
  · intro s t client_id m h
    simp [RateLimiter.check_connection_limit, h]
  · intro sq s ip t h
    simp [DDoSProtection.check_request, h]
  · intro s ip t h
    simp [DDoSProtection.check_connection, h]

/-- C9 (witness): the five statements at the freshly-constructed (disabled)
components. -/
theorem C9_disabled_bypass_witness :
    ((RateLimiter.check_limit (RateLimiter.mkRateLimiter 0) 7 "10.0.0.1" 10 5).1.allowed = true ∧
     (RateLimiter.check_limit (RateLimiter.mkRateLimiter 0) 7 "10.0.0.1" 10 5).2 =
        RateLimiter.mkRateLimiter 0) ∧
    ((RateLimiter.check_global_limit (RateLimiter.mkRateLimiter 0) 7).1.allowed = true ∧
     (RateLimiter.check_global_limit (RateLimiter.mkRateLimiter 0) 7).2 =
        RateLimiter.mkRateLimiter 0) ∧
    ((RateLimiter.check_connection_limit (RateLimiter.mkRateLimiter 0) 7 "10.0.0.1" 3).1 = true ∧
     (RateLimiter.check_connection_limit (RateLimiter.mkRateLimiter 0) 7 "10.0.0.1" 3).2 =
        RateLimiter.mkRateLimiter 0) ∧
    ((DDoSProtection.check_request id DDoSProtection.mkDDoSProtection "10.0.0.1" 7).1.allowed = true ∧
     (DDoSProtection.check_request id DDoSProtection.mkDDoSProtection "10.0.0.1" 7).2 =
        DDoSProtection.mkDDoSProtection) ∧
    ((DDoSProtection.check_connection DDoSProtection.mkDDoSProtection "10.0.0.1" 7).1.allowed = true ∧
     (DDoSProtection.check_connection DDoSProtection.mkDDoSProtection "10.0.0.1" 7).2 =
        DDoSProtection.mkDDoSProtection) :=
  ⟨C9_disabled_bypass.1 _ 7 "10.0.0.1" 10 5 rfl,
   C9_disabled_bypass.2.1 _ 7 rfl,
   C9_disabled_bypass.2.2.1 _ 7 "10.0.0.1" 3 rfl,
   C9_disabled_bypass.2.2.2.1 id _ "10.0.0.1" 7 rfl,
   C9_disabled_bypass.2.2.2.2 _ "10.0.0.1" 7 rfl⟩

/-! ## C4 — rule ordering and first-match evaluation -/

/-- The comparison that `compare_rules(a, b) < 0` realises is a strict
key comparison on `ruleSortKey`. -/
theorem compare_rules_lt_iff (a b : ACLManager.ACLRule) :
    ACLManager.compare_rules a b < 0 ↔ ACLManager.ruleSortKey a < ACLManager.ruleSortKey b := by
  unfold ACLManager.compare_rules
  omega

theorem mem_insertRule {r y : ACLManager.ACLRule} {l : List ACLManager.ACLRule}
    (h : y ∈ ACLManager.insertRule r l) : y ∈ l ∨ y = r := by
  revert h
  induction l with
  | nil =>
      intro h
      simp [ACLManager.insertRule] at h
      exact Or.inr h
  | cons x xs ih =>
      intro h
      unfold ACLManager.insertRule at h
      by_cases hc : ACLManager.compare_rules r x < 0
      · rw [if_pos hc] at h
        rcases List.mem_cons.mp h with h | h
        · exact Or.inr h
        · exact Or.inl h
      · rw [if_neg hc] at h
        rcases List.mem_cons.mp h with h | h
        · exact Or.inl (List.mem_cons.mpr (Or.inl h))
        · rcases ih h with h2 | h2
          · exact Or.inl (List.mem_cons.mpr (Or.inr h2))
          · exact Or.inr h2

theorem pairwise_insertRule (r : ACLManager.ACLRule) (l : List ACLManager.ACLRule)
    (h : l.Pairwise fun a b => ACLManager.ruleSortKey a ≤ ACLManager.ruleSortKey b) :
    (ACLManager.insertRule r l).Pairwise
      fun a b => ACLManager.ruleSortKey a ≤ ACLManager.ruleSortKey b := by
  revert h
  induction l with
  | nil =>
      intro h
      simp [ACLManager.insertRule]
  | cons x xs ih =>
      intro h
      rcases List.pairwise_cons.mp h with ⟨hx, hxs⟩
      unfold ACLManager.insertRule
      by_cases hc : ACLManager.compare_rules r x < 0
      · rw [if_pos hc]
        have hrx := (compare_rules_lt_iff r x).mp hc
        refine List.pairwise_cons.mpr ⟨?_, h⟩
        intro y hy
        rcases List.mem_cons.mp hy with hy | hy
        · rw [hy]
          exact le_of_lt hrx
        · exact le_trans (le_of_lt hrx) (hx y hy)
      · rw [if_neg hc]
        have hxr : ACLManager.ruleSortKey x ≤ ACLManager.ruleSortKey r := by
          have h2 : ¬ ACLManager.ruleSortKey r < ACLManager.ruleSortKey x :=
            fun hlt => hc ((compare_rules_lt_iff r x).mpr hlt)
          omega
        refine List.pairwise_cons.mpr ⟨?_, ih hxs⟩
        intro y hy
        rcases mem_insertRule hy with h2 | h2
        · exact hx y h2
        · rw [h2]
          exact hxr

theorem pairwise_sort_rules (l : List ACLManager.ACLRule) :
    (ACLManager.sort_rules l).Pairwise
      fun a b => ACLManager.ruleSortKey a ≤ ACLManager.ruleSortKey b := by
  induction l with
  | nil => simp [ACLManager.sort_rules]
  | cons x xs ih => exact pairwise_insertRule x _ ih

/-- The first-match characterisation of the `is_denied` loop, for a table
whose rules all evaluate without a `std::stoi` exception. -/
theorem is_denied_list_eq_first_match (ip : String) (dflt : ACLManager.ACLAction)
    (rules : List ACLManager.ACLRule)
    (h : ∀ r ∈ rules, (ACLManager.is_ip_in_network ip r.network).isSome) :
    ACLManager.is_denied_list ip dflt rules = some
      (match rules.find? (fun r => ACLManager.matchesRule ip r) with
       | some r => decide (r.action = ACLManager.ACLAction.DENY)
       | none => decide (dflt = ACLManager.ACLAction.DENY)) := by
  induction rules with
  | nil => simp [ACLManager.is_denied_list]
  | cons r rest ih =>
      have hr := h r (List.mem_cons_self r rest)
      cases hm : ACLManager.is_ip_in_network ip r.network with
      | none => rw [hm] at hr; simp at hr
      | some b =>
          have hmr : ACLManager.matchesRule ip r = b := by
            unfold ACLManager.matchesRule; rw [hm]; rfl
          cases b with
          | true =>
              unfold ACLManager.is_denied_list
              rw [hm, List.find?_cons_of_pos _ (by rw [hmr])]
          | false =>
              unfold ACLManager.is_denied_list
              rw [hm, List.find?_cons_of_neg _ (by rw [hmr]; simp)]
              exact ih fun r hr2 => h r (List.mem_cons_of_mem _ hr2)

/-- C4: (1) after every successful `add_rule` the stored table is sorted by
ascending `ruleSortKey` — the population count of the rule's parsed mask,
i.e. its prefix length — so the least specific network comes first; (2)
`is_denied` evaluates the stored sequence in table order: the first rule
whose network contains the queried ip (in the sense of the code's own
`is_ip_in_network` containment test) determines the outcome, and the
configured default action applies when no rule matches.  `is_allowed` is
the pointwise negation of `is_denied` by definition. -/
theorem C4_rule_order_and_first_match :
    (∀ (rules : List ACLManager.ACLRule) (rule : ACLManager.ACLRule)
        (rules2 : List ACLManager.ACLRule),
        ACLManager.add_rule rules rule = some (true, rules2) →
        rules2.Pairwise fun a b => ACLManager.ruleSortKey a ≤ ACLManager.ruleSortKey b) ∧
    (∀ (dflt : ACLManager.ACLAction) (rules : List ACLManager.ACLRule) (ip : String),
        (∀ r ∈ rules, (ACLManager.is_ip_in_network ip r.network).isSome) →
        ACLManager.is_denied ⟨dflt, rules⟩ ip = some
          (match rules.find? (fun r => ACLManager.matchesRule ip r) with
           | some r => decide (r.action = ACLManager.ACLAction.DENY)
           | none => decide (dflt = ACLManager.ACLAction.DENY))) := by
  constructor
  · intro rules rule rules2 h
    unfold ACLManager.add_rule at h
    cases hv : ACLManager.is_valid_cidr rule.network with
    | none => rw [hv] at h; simp at h
    | some b =>
        cases b with
        | false => rw [hv] at h; simp at h
        | true =>
            rw [hv] at h
            simp at h
            rw [← h]
            exact pairwise_sort_rules _
  · intro dflt rules ip h
    exact is_denied_list_eq_first_match ip dflt rules h

/-- C4 (witness): adding `ALLOW 10.0.0.0/8` to a table holding
`DENY 192.168.1.0/24` yields the table sorted ascending by prefix length
(`/8` before `/24`), and `is_denied` on that table follows the first-match
characterisation at a concrete address. -/
theorem C4_rule_order_and_first_match_witness :
    ([(⟨ACLManager.ACLAction.ALLOW, "10.0.0.0/8", ""⟩ : ACLManager.ACLRule),
      ⟨ACLManager.ACLAction.DENY, "192.168.1.0/24", ""⟩].Pairwise
        fun a b => ACLManager.ruleSortKey a ≤ ACLManager.ruleSortKey b) ∧
    ACLManager.is_denied
        ⟨ACLManager.ACLAction.DENY,
         [⟨ACLManager.ACLAction.ALLOW, "10.0.0.0/8", ""⟩,
          ⟨ACLManager.ACLAction.DENY, "192.168.1.0/24", ""⟩]⟩ "10.0.0.5" = some
      (match [(⟨ACLManager.ACLAction.ALLOW, "10.0.0.0/8", ""⟩ : ACLManager.ACLRule),
              ⟨ACLManager.ACLAction.DENY, "192.168.1.0/24", ""⟩].find?
                (fun r => ACLManager.matchesRule "10.0.0.5" r) with
       | some r => decide (r.action = ACLManager.ACLAction.DENY)
       | none => decide (ACLManager.ACLAction.DENY = ACLManager.ACLAction.DENY)) :=
  ⟨C4_rule_order_and_first_match.1
      [⟨ACLManager.ACLAction.DENY, "192.168.1.0/24", ""⟩]
      ⟨ACLManager.ACLAction.ALLOW, "10.0.0.0/8", ""⟩ _ (by decide),
   C4_rule_order_and_first_match.2 ACLManager.ACLAction.DENY _ "10.0.0.5" (by decide)⟩

/-! ## C7 — anomaly score -/

theorem intervalsMs_length (l : List Int) :
    (DDoSProtection.intervalsMs l).length = l.length - 1 := by
  unfold DDoSProtection.intervalsMs
  rw [List.length_map, List.length_zip, List.length_tail]
  omega

theorem calculate_request_rate_eq_countP (w : Nat) (st : DDoSProtection.ClientStats) (t : Int)
    (h : st.request_times ≠ []) :
    DDoSProtection.calculate_request_rate w st t =
      st.request_times.countP fun x => decide (t - (w : Int) * 1000000000 ≤ x) := by
  unfold DDoSProtection.calculate_request_rate
  rw [if_neg (by simp [h])]

/-- C7: for every per-IP statistics record that can actually arise
(`total_requests` counts every recorded request, so it bounds the number of
retained timestamps), the anomaly score computed by the code equals the
specification formula: 0 with fewer than 2 recorded timestamps, else
`(r / mean_interval) × (1 / (1 + stddev))` for positive `mean_interval` and
0 otherwise — with `r` the windowed request count, the mean and
population-style variance taken over the consecutive inter-arrival
intervals in milliseconds, and `stddev = sq variance` for the (arbitrary)
square-root function `sq` both sides share. -/
theorem C7_anomaly_score_formula (sq : ℚ → ℚ) (w : Nat) (st : DDoSProtection.ClientStats)
    (t : Int) (hlen : st.request_times.length ≤ st.total_requests) :
    DDoSProtection.calculate_anomaly_score sq w st t = anomalyScoreSpec sq w st t := by
  unfold DDoSProtection.calculate_anomaly_score anomalyScoreSpec
  by_cases h2 : st.request_times.length < 2
  · simp only [if_pos h2]
    by_cases h0 : st.total_requests = 0
    · rw [if_pos h0]
    · rw [if_neg h0]
  · have h0 : ¬ st.total_requests = 0 := by omega
    have hnil : st.request_times ≠ [] := by
      intro hn
      rw [hn] at h2
      simp at h2
    simp only [if_neg h0, if_neg h2, calculate_request_rate_eq_countP w st t hnil,
      intervalsMs_length]

/-- C7 (witness): the equality evaluated at a concrete record of three
timestamps (spaced 1 ms and 3 ms apart), `sq = id`, a 60-second window and
`now = 5000000`. -/
theorem C7_anomaly_score_formula_witness :
    (DDoSProtection.ClientStats.request_times
        ⟨[1000000, 2000000, 5000000], [], 3, 0, 1000000, 5000000, 0⟩).length ≤
      DDoSProtection.ClientStats.total_requests
        ⟨[1000000, 2000000, 5000000], [], 3, 0, 1000000, 5000000, 0⟩ ∧
    DDoSProtection.calculate_anomaly_score id 60
        ⟨[1000000, 2000000, 5000000], [], 3, 0, 1000000, 5000000, 0⟩ 5000000 =
      anomalyScoreSpec id 60
        ⟨[1000000, 2000000, 5000000], [], 3, 0, 1000000, 5000000, 0⟩ 5000000 :=
  ⟨by decide, C7_anomaly_score_formula id 60 _ 5000000 (by decide)⟩

/-! ## C1 — token-bucket bounds -/

theorem postRefillGlobal_le (s : RateLimiter.RLState) (t : Int)
    (h : s.global_tokens ≤ s.global_burst) :
    RateLimiter.postRefillGlobal s t ≤ s.global_burst := by
  unfold RateLimiter.postRefillGlobal
  split
  · exact min_le_left _ _
  · exact h

theorem check_global_limit_fields (s : RateLimiter.RLState) (t : Int)
    (he : ¬ s.enabled = false) :
    (RateLimiter.check_global_limit s t).2.clients = s.clients ∧
    (RateLimiter.check_global_limit s t).2.global_burst = s.global_burst ∧
    (RateLimiter.check_global_limit s t).2.enabled = s.enabled ∧
    (RateLimiter.check_global_limit s t).2.window_seconds = s.window_seconds := by
  unfold RateLimiter.check_global_limit
  rw [if_neg he]
  split <;> exact ⟨rfl, rfl, rfl, rfl⟩

theorem check_global_limit_tokens_le (s : RateLimiter.RLState) (t : Int)
    (h : s.global_tokens ≤ s.global_burst) :
    (RateLimiter.check_global_limit s t).2.global_tokens ≤ s.global_burst := by
  unfold RateLimiter.check_global_limit
  by_cases he : s.enabled = false
  · rw [if_pos he]
    exact h
  · rw [if_neg he]
    have hle := postRefillGlobal_le s t h
    split
    · exact le_trans (Nat.sub_le _ _) hle
    · exact hle

theorem clientAfter_inv (s1 : RateLimiter.RLState) (t : Int) (cid : String) (rps b : Nat)
    (h : ∀ kv ∈ s1.clients, kv.2.tokens ≤ kv.2.burst) :
    (RateLimiter.clientAfter s1 t cid rps b).burst = b ∧
    (RateLimiter.clientAfter s1 t cid rps b).tokens ≤ b := by
  have hst0 : ((lookupKey s1.clients cid).getD (RateLimiter.defaultClientState t)).tokens ≤
      ((lookupKey s1.clients cid).getD (RateLimiter.defaultClientState t)).burst := by
    cases hlk : lookupKey s1.clients cid with
    | none => simp [hlk, RateLimiter.defaultClientState]
    | some v => simpa [hlk] using h _ (lookupKey_mem hlk)
  unfold RateLimiter.clientAfter
  generalize (lookupKey s1.clients cid).getD (RateLimiter.defaultClientState t) = st0 at hst0 ⊢
  have hrc : (RateLimiter.reconfigClient st0 rps b t).burst = b ∧
      (RateLimiter.reconfigClient st0 rps b t).tokens ≤ b := by
    unfold RateLimiter.reconfigClient
    split
    · exact ⟨rfl, le_refl b⟩
    · next hcond =>
        rw [not_or] at hcond
        have hb : st0.burst = b := by
          have := hcond.2
          simpa using this
        exact ⟨hb, hb ▸ hst0⟩
  unfold RateLimiter.refillClient
  split
  · exact ⟨hrc.1, min_le_left _ _⟩
  · exact hrc

theorem check_limit_preserves_inv (s : RateLimiter.RLState) (t : Int) (cid : String)
    (r b : Nat) (h : TokenBoundsInv s) :
    TokenBoundsInv (RateLimiter.check_limit s t cid r b).2 := by
  obtain ⟨hg, hc⟩ := h
  unfold RateLimiter.check_limit
  by_cases he : s.enabled = false
  · rw [if_pos he]
    exact ⟨hg, hc⟩
  · rw [if_neg he]
    have hf := check_global_limit_fields s t he
    have hgt := check_global_limit_tokens_le s t hg
    by_cases ha : (RateLimiter.check_global_limit s t).1.allowed = false
    · rw [if_pos ha]
      refine ⟨le_of_le_of_eq hgt hf.2.1.symm, ?_⟩
      rw [hf.1]
      exact hc
    · rw [if_neg ha]
      have hc1 : ∀ kv ∈ (RateLimiter.check_global_limit s t).2.clients,
          kv.2.tokens ≤ kv.2.burst := by
        rw [hf.1]
        exact hc
      have hca := clientAfter_inv (RateLimiter.check_global_limit s t).2 t cid r b hc1
      unfold RateLimiter.clientPhase
      split
      · refine ⟨le_of_le_of_eq hgt hf.2.1.symm, ?_⟩
        intro kv hkv
        rcases mem_setEntry hkv with h2 | h2
        · exact hc1 kv h2
        · rw [h2]
          show (RateLimiter.consumeClient _).tokens ≤ (RateLimiter.consumeClient _).burst
          unfold RateLimiter.consumeClient
          refine le_trans (Nat.sub_le _ _) ?_
          rw [hca.1]
          exact hca.2
      · refine ⟨le_of_le_of_eq hgt hf.2.1.symm, ?_⟩
        intro kv hkv
        rcases mem_setEntry hkv with h2 | h2
        · exact hc1 kv h2
        · rw [h2]
          show (RateLimiter.clientAfter _ t cid r b).tokens ≤
            (RateLimiter.clientAfter _ t cid r b).burst
          rw [hca.1]
          exact hca.2

/-- C1: along any sequence of `check_limit` calls (arbitrary timestamps,
clients and per-call rate/burst parameters) from a state satisfying the
token bounds, every per-client bucket keeps `tokens ≤ burst` and the global
bucket keeps `tokens ≤ global_burst`.  Since the statement holds for every
call list, it holds for every prefix, i.e. at every observation point; the
counts live in `Nat` (images of `uint64_t`) and the only decrement in the
code is guarded by `tokens > 0`, so the counts can never go negative or
wrap below zero. -/
theorem C1_token_bucket_bounds (s : RateLimiter.RLState) (h : TokenBoundsInv s)
    (calls : List (Int × String × Nat × Nat)) : TokenBoundsInv (runCheckLimits s calls) := by
  induction calls generalizing s with
  | nil => exact h
  | cons c rest ih =>
      exact ih _ (check_limit_preserves_inv s c.1 c.2.1 c.2.2.1 c.2.2.2 h)

/-- C1 (witness): the invariant holds in the constructor state and after a
concrete burst of calls (two clients, one with mismatched reconfiguration
parameters, same timestamp, plus a later call). -/
theorem C1_token_bucket_bounds_witness :
    TokenBoundsInv
      (runCheckLimits { RateLimiter.mkRateLimiter 0 with enabled := true }
        [(0, "10.0.0.1", 10, 5), (0, "10.0.0.1", 10, 5), (0, "10.0.0.2", 3, 2),
         (2000000000, "10.0.0.1", 7, 4)]) :=
  C1_token_bucket_bounds _ ⟨by decide, by simp [RateLimiter.mkRateLimiter]⟩ _

/-! ## C10 — the global token is consumed first and not refunded -/

theorem check_global_limit_cases (s : RateLimiter.RLState) (t : Int)
    (he : ¬ s.enabled = false) :
    ((RateLimiter.check_global_limit s t).1.allowed = true ∧
     0 < RateLimiter.postRefillGlobal s t ∧
     (RateLimiter.check_global_limit s t).2.global_tokens =
       RateLimiter.postRefillGlobal s t - 1) ∨
    ((RateLimiter.check_global_limit s t).1.allowed = false ∧
     (RateLimiter.check_global_limit s t).1.message = "Global rate limit exceeded") := by
  unfold RateLimiter.check_global_limit
  rw [if_neg he]
  split
  · next hpos => exact Or.inl ⟨rfl, hpos, rfl⟩
  · exact Or.inr ⟨rfl, rfl⟩

/-- C10: every `check_limit` call that is denied with the per-client
message `"Rate limit exceeded"` passed the global gate first and consumed
one global token there, and the per-client rejection does not refund it:
the global token count after the call is exactly one less than the
post-refill global count at call time. -/
theorem C10_global_token_not_refunded (s : RateLimiter.RLState) (t : Int) (cid : String)
    (r b : Nat)
    (hden : (RateLimiter.check_limit s t cid r b).1.allowed = false)
    (hmsg : (RateLimiter.check_limit s t cid r b).1.message = "Rate limit exceeded") :
    (RateLimiter.check_limit s t cid r b).2.global_tokens + 1 =
      RateLimiter.postRefillGlobal s t := by
  unfold RateLimiter.check_limit at hden hmsg ⊢
  by_cases he : s.enabled = false
  · rw [if_pos he] at hden
    simp at hden
  · rw [if_neg he] at hden hmsg ⊢
    by_cases ha : (RateLimiter.check_global_limit s t).1.allowed = false
    · rw [if_pos ha] at hmsg
      rcases check_global_limit_cases s t he with hcase | hcase
      · rw [hcase.1] at ha
        simp at ha
      · rw [hcase.2] at hmsg
        exact absurd hmsg (by decide)
    · rw [if_neg ha] at hden hmsg ⊢
      rcases check_global_limit_cases s t he with hcase | hcase
      · obtain ⟨-, hpos, htok⟩ := hcase
        unfold RateLimiter.clientPhase at hden ⊢
        split at hden
        · simp at hden
        · next hneg =>
            rw [if_neg hneg]
            show (RateLimiter.check_global_limit s t).2.global_tokens + 1 =
              RateLimiter.postRefillGlobal s t
            rw [htok]
            omega
      · exact absurd hcase.1 ha

/-- C10 (witness): an enabled limiter whose client `"c"` has an empty
bucket with matching parameters; the call is denied with
`"Rate limit exceeded"` and the global count drops from the post-refill 200
to 199. -/
theorem C10_global_token_not_refunded_witness :
    (RateLimiter.check_limit
        { RateLimiter.mkRateLimiter 0 with
            enabled := true,
            clients := [("c", ⟨0, 10, 5, 0, 0⟩)] } 0 "c" 10 5).1.allowed = false ∧
    (RateLimiter.check_limit
        { RateLimiter.mkRateLimiter 0 with
            enabled := true,
            clients := [("c", ⟨0, 10, 5, 0, 0⟩)] } 0 "c" 10 5).1.message = "Rate limit exceeded" ∧
    (RateLimiter.check_limit
        { RateLimiter.mkRateLimiter 0 with
            enabled := true,
            clients := [("c", ⟨0, 10, 5, 0, 0⟩)] } 0 "c" 10 5).2.global_tokens + 1 =
      RateLimiter.postRefillGlobal
        { RateLimiter.mkRateLimiter 0 with
            enabled := true,
            clients := [("c", ⟨0, 10, 5, 0, 0⟩)] } 0 :=
  ⟨by decide, by decide, C10_global_token_not_refunded _ 0 "c" 10 5 (by decide) (by decide)⟩

/-! ## C2 — saturating admission -/

theorem secondsSince_postRefillStamp (s : RateLimiter.RLState) (t : Int) :
    secondsSince t (RateLimiter.postRefillStamp s t) = 0 := by
  unfold RateLimiter.postRefillStamp
  split
  · simp [secondsSince]
  · next h => omega

theorem postRefillGlobal_of_stamp (s1 : RateLimiter.RLState) (t : Int)
    (h : secondsSince t s1.global_last_refill = 0) :
    RateLimiter.postRefillGlobal s1 t = s1.global_tokens := by
  unfold RateLimiter.postRefillGlobal
  rw [h]
  simp

theorem postRefillGlobal_clients_irrel (s1 : RateLimiter.RLState)
    (cl : List (String × RateLimiter.ClientState)) (t : Int) :
    RateLimiter.postRefillGlobal { s1 with clients := cl } t =
      RateLimiter.postRefillGlobal s1 t := rfl

theorem check_global_step (s : RateLimiter.RLState) (t : Int)
    (he : s.enabled = true) (hpos : 0 < RateLimiter.postRefillGlobal s t) :
    (RateLimiter.check_global_limit s t).1.allowed = true ∧
    (RateLimiter.check_global_limit s t).2.clients = s.clients ∧
    (RateLimiter.check_global_limit s t).2.enabled = true ∧
    RateLimiter.postRefillGlobal (RateLimiter.check_global_limit s t).2 t =
      RateLimiter.postRefillGlobal s t - 1 := by
  have he2 : ¬ s.enabled = false := by rw [he]; simp
  unfold RateLimiter.check_global_limit
  rw [if_neg he2, if_pos hpos]
  refine ⟨rfl, rfl, he, ?_⟩
  rw [postRefillGlobal_of_stamp _ t (secondsSince_postRefillStamp s t)]

theorem clientAfter_of_match (s1 : RateLimiter.RLState) (t : Int) (cid : String)
    (st : RateLimiter.ClientState) (r b : Nat)
    (hlk : lookupKey s1.clients cid = some st)
    (hr : st.rate = r) (hb : st.burst = b) (hlr : st.last_refill = t) :
    RateLimiter.clientAfter s1 t cid r b = st := by
  unfold RateLimiter.clientAfter RateLimiter.reconfigClient
  rw [hlk]
  simp only [Option.getD_some]
  rw [if_neg (by simp [hr, hb])]
  unfold RateLimiter.refillClient
  rw [if_neg (by rw [hlr]; simp [secondsSince])]

theorem check_limit_step (s : RateLimiter.RLState) (t : Int) (cid : String)
    (st : RateLimiter.ClientState) (r b : Nat)
    (he : s.enabled = true) (hpos : 0 < RateLimiter.postRefillGlobal s t)
    (hlk : lookupKey s.clients cid = some st)
    (hr : st.rate = r) (hb : st.burst = b) (hlr : st.last_refill = t) :
    (RateLimiter.check_limit s t cid r b).1.allowed = decide (0 < st.tokens) ∧
    lookupKey (RateLimiter.check_limit s t cid r b).2.clients cid =
      some { st with tokens := st.tokens - 1 } ∧
    (RateLimiter.check_limit s t cid r b).2.enabled = true ∧
    RateLimiter.postRefillGlobal (RateLimiter.check_limit s t cid r b).2 t =
      RateLimiter.postRefillGlobal s t - 1 := by
  obtain ⟨hal, hcl, hen1, hpg⟩ := check_global_step s t he hpos
  have he2 : ¬ s.enabled = false := by rw [he]; simp
  unfold RateLimiter.check_limit
  rw [if_neg he2, if_neg (by rw [hal]; simp)]
  have hlk1 : lookupKey (RateLimiter.check_global_limit s t).2.clients cid = some st := by
    rw [hcl]
    exact hlk
  have hca := clientAfter_of_match _ t cid st r b hlk1 hr hb hlr
  unfold RateLimiter.clientPhase
  rw [hca]
  by_cases ht : 0 < st.tokens
  · rw [if_pos ht]
    refine ⟨by simp [ht], ?_, hen1, ?_⟩
    · rw [lookupKey_setEntry_self]
      rfl
    · rw [postRefillGlobal_clients_irrel]
      exact hpg
  · rw [if_neg ht]
    have hz : st.tokens = 0 := by omega
    refine ⟨by simp [ht], ?_, hen1, ?_⟩
    · rw [lookupKey_setEntry_self]
      obtain ⟨tok, r2, b2, lr2, ac2⟩ := st
      simp only at hz
      subst hz
      rfl
    · rw [postRefillGlobal_clients_irrel]
      exact hpg

theorem check_limit_fresh (s : RateLimiter.RLState) (t : Int) (cid : String) (r b : Nat)
    (he : s.enabled = true) (hpos : 0 < RateLimiter.postRefillGlobal s t)
    (hlk : lookupKey s.clients cid = none) (hne : (0 : Nat) ≠ r ∨ (0 : Nat) ≠ b) :
    (RateLimiter.check_limit s t cid r b).1.allowed = decide (0 < b) ∧
    lookupKey (RateLimiter.check_limit s t cid r b).2.clients cid =
      some ⟨b - 1, r, b, t, 0⟩ ∧
    (RateLimiter.check_limit s t cid r b).2.enabled = true ∧
    RateLimiter.postRefillGlobal (RateLimiter.check_limit s t cid r b).2 t =
      RateLimiter.postRefillGlobal s t - 1 := by
  obtain ⟨hal, hcl, hen1, hpg⟩ := check_global_step s t he hpos
  have he2 : ¬ s.enabled = false := by rw [he]; simp
  unfold RateLimiter.check_limit
  rw [if_neg he2, if_neg (by rw [hal]; simp)]
  have hlk1 : lookupKey (RateLimiter.check_global_limit s t).2.clients cid = none := by
    rw [hcl]
    exact hlk
  have hca : RateLimiter.clientAfter (RateLimiter.check_global_limit s t).2 t cid r b =
      ⟨b, r, b, t, 0⟩ := by
    unfold RateLimiter.clientAfter RateLimiter.reconfigClient
    rw [hlk1]
    simp only [Option.getD_none]
    rw [if_pos (by simpa [RateLimiter.defaultClientState] using hne)]
    unfold RateLimiter.refillClient
    rw [if_neg (by simp [secondsSince, RateLimiter.defaultClientState])]
    rfl
  unfold RateLimiter.clientPhase
  rw [hca]
  by_cases hb0 : 0 < b
  · rw [if_pos hb0]
    refine ⟨by simp [hb0], ?_, hen1, ?_⟩
    · rw [lookupKey_setEntry_self]
      rfl
    · rw [postRefillGlobal_clients_irrel]
      exact hpg
  · rw [if_neg hb0]
    have hb : b = 0 := by omega
    subst hb
    refine ⟨by simp, ?_, hen1, ?_⟩
    · rw [lookupKey_setEntry_self]
    · rw [postRefillGlobal_clients_irrel]
      exact hpg

theorem C2_chain (s : RateLimiter.RLState) (t : Int) (cid : String)
    (he : s.enabled = true) (hfresh : lookupKey s.clients cid = none)
    (hg : 6 ≤ RateLimiter.postRefillGlobal s t) :
    ∀ k, 1 ≤ k → k ≤ 5 →
      lookupKey (iterateCheckLimit s t cid 10 5 k).clients cid =
        some ⟨5 - k, 10, 5, t, 0⟩ ∧
      (iterateCheckLimit s t cid 10 5 k).enabled = true ∧
      RateLimiter.postRefillGlobal (iterateCheckLimit s t cid 10 5 k) t + k =
        RateLimiter.postRefillGlobal s t := by
  intro k
  induction k with
  | zero => omega
  | succ n ih =>
      intro _ h5
      by_cases hn : n = 0
      · subst hn
        have h := check_limit_fresh s t cid 10 5 he (by omega) hfresh (Or.inl (by decide))
        simp only [iterateCheckLimit]
        exact ⟨h.2.1, h.2.2.1, by have := h.2.2.2; omega⟩
      · obtain ⟨hlk, hen, hpg⟩ := ih (by omega) (by omega)
        have hstep := check_limit_step (iterateCheckLimit s t cid 10 5 n) t cid
          ⟨5 - n, 10, 5, t, 0⟩ 10 5 hen (by omega) hlk rfl rfl rfl
        simp only [iterateCheckLimit]
        refine ⟨?_, hstep.2.2.1, ?_⟩
        · rw [hstep.2.1]
          show some (⟨5 - n - 1, 10, 5, t, 0⟩ : RateLimiter.ClientState) =
            some ⟨5 - (n + 1), 10, 5, t, 0⟩
          have h51 : 5 - n - 1 = 5 - (n + 1) := by omega
          rw [h51]
        · have := hstep.2.2.2
          omega

/-- C2: with the limiter enabled, a fresh client key, and the global bucket
able to serve all six calls (post-refill count at least 6, i.e. non-empty
throughout), exactly 5 consecutive `check_limit(client, 10, 5)` calls at
one fixed instant return `allowed = true` and the 6th returns
`allowed = false`. -/
theorem C2_saturating_admission (s : RateLimiter.RLState) (t : Int) (cid : String)
    (he : s.enabled = true) (hfresh : lookupKey s.clients cid = none)
    (hg : 6 ≤ RateLimiter.postRefillGlobal s t) :
    (∀ k, k < 5 →
      (RateLimiter.check_limit (iterateCheckLimit s t cid 10 5 k) t cid 10 5).1.allowed =
        true) ∧
    (RateLimiter.check_limit (iterateCheckLimit s t cid 10 5 5) t cid 10 5).1.allowed =
      false := by
  have chain := C2_chain s t cid he hfresh hg
  constructor
  · intro k hk
    interval_cases k
    · have h := check_limit_fresh s t cid 10 5 he (by omega) hfresh (Or.inl (by decide))
      show (RateLimiter.check_limit s t cid 10 5).1.allowed = true
      rw [h.1]
      decide
    · obtain ⟨hlk, hen, hpg⟩ := chain 1 (by omega) (by omega)
      have hstep := check_limit_step _ t cid ⟨5 - 1, 10, 5, t, 0⟩ 10 5 hen (by omega) hlk
        rfl rfl rfl
      rw [hstep.1]
      simp
    · obtain ⟨hlk, hen, hpg⟩ := chain 2 (by omega) (by omega)
      have hstep := check_limit_step _ t cid ⟨5 - 2, 10, 5, t, 0⟩ 10 5 hen (by omega) hlk
        rfl rfl rfl
      rw [hstep.1]
      simp
    · obtain ⟨hlk, hen, hpg⟩ := chain 3 (by omega) (by omega)
      have hstep := check_limit_step _ t cid ⟨5 - 3, 10, 5, t, 0⟩ 10 5 hen (by omega) hlk
        rfl rfl rfl
      rw [hstep.1]
      simp
    · obtain ⟨hlk, hen, hpg⟩ := chain 4 (by omega) (by omega)
      have hstep := check_limit_step _ t cid ⟨5 - 4, 10, 5, t, 0⟩ 10 5 hen (by omega) hlk
        rfl rfl rfl
      rw [hstep.1]
      simp
  · obtain ⟨hlk, hen, hpg⟩ := chain 5 (by omega) (by omega)
    have hstep := check_limit_step _ t cid ⟨5 - 5, 10, 5, t, 0⟩ 10 5 hen (by omega) hlk
      rfl rfl rfl
    rw [hstep.1]
    simp

/-- C2 (witness): the saturation behaviour at the freshly-constructed
limiter, enabled, all six calls at the construction instant; the 5th call
(index 4) is allowed and the 6th (index 5) is denied. -/
theorem C2_saturating_admission_witness :
    (RateLimiter.check_limit
        (iterateCheckLimit { RateLimiter.mkRateLimiter 0 with enabled := true } 0 "10.0.0.1"
          10 5 4) 0 "10.0.0.1" 10 5).1.allowed = true ∧
    (RateLimiter.check_limit
        (iterateCheckLimit { RateLimiter.mkRateLimiter 0 with enabled := true } 0 "10.0.0.1"
          10 5 5) 0 "10.0.0.1" 10 5).1.allowed = false :=
  ⟨(C2_saturating_admission { RateLimiter.mkRateLimiter 0 with enabled := true } 0
      "10.0.0.1" rfl rfl (by decide)).1 4 (by decide),
   (C2_saturating_admission { RateLimiter.mkRateLimiter 0 with enabled := true } 0
      "10.0.0.1" rfl rfl (by decide)).2⟩

/-! ## C8 — DDoS threshold detection -/

theorem countP_filter_window (l : List Int) (a c : Int) (hca : c ≤ a) :
    List.countP (fun x => decide (a ≤ x)) (List.filter (fun x => decide (c ≤ x)) l) =
      List.countP (fun x => decide (a ≤ x)) l := by
  rw [List.countP_filter]
  apply List.countP_congr
  intro x _
  by_cases h : a ≤ x
  · simp [h, le_trans hca h]
  · simp [h]

/-- C8: with the guard enabled, `threshold = 10`, an unblocked IP and 15
requests already recorded inside the sliding window, the next
`check_request` records a 16th, sees a windowed rate of 16 > 10, and
returns `allowed = false` with status `ATTACK_DETECTED`, reporting and
installing a block of `block_duration_seconds` (a block entry stamped `now`
expiring at `now + block_duration_seconds`). -/
theorem C8_threshold_attack_detected (sq : ℚ → ℚ) (s : DDoSProtection.DDoSState) (ip : String)
    (t : Int) (st : DDoSProtection.ClientStats)
    (he : s.enabled = true)
    (hth : s.threshold = 10)
    (hnb : DDoSProtection.is_blocked s ip t = false)
    (hlk : lookupKey s.client_stats ip = some st)
    (hcount : List.countP
      (fun x => decide (t - (s.connection_window_seconds : Int) * 1000000000 ≤ x))
      st.request_times = 15) :
    (DDoSProtection.check_request sq s ip t).1.allowed = false ∧
    (DDoSProtection.check_request sq s ip t).1.status =
      DDoSProtection.DDoSStatus.ATTACK_DETECTED ∧
    (DDoSProtection.check_request sq s ip t).1.block_duration_seconds =
      s.block_duration_seconds ∧
    lookupKey (DDoSProtection.check_request sq s ip t).2.blocked_clients ip =
      some ⟨t, t + (s.block_duration_seconds : Int) * 1000000000,
            "DDoS protection triggered"⟩ := by
  have he2 : ¬ s.enabled = false := by rw [he]; simp
  have hstep : ∃ st2, lookupKey (DDoSProtection.record_request s ip t).client_stats ip =
      some st2 ∧
      st2.request_times = (st.request_times ++ [t]).filter
        (fun x => decide (t - ((s.connection_window_seconds : Int) * 2) * 1000000000 ≤ x)) := by
    unfold DDoSProtection.record_request DDoSProtection.cleanup_old_entries
    simp only [hlk, Option.getD_some]
    refine ⟨_, lookupKey_setEntry_self _ _ _, ?_⟩
    split <;> rfl
  obtain ⟨st2, hlk2, hrt⟩ := hstep
  have hmemt : t ∈ st2.request_times := by
    rw [hrt]
    apply List.mem_filter.mpr
    refine ⟨by simp, by simp⟩
  have hne2 : st2.request_times ≠ [] := by
    intro hempty
    rw [hempty] at hmemt
    simp at hmemt
  have hcnt2 : List.countP
      (fun x => decide (t - (s.connection_window_seconds : Int) * 1000000000 ≤ x))
      st2.request_times = 16 := by
    rw [hrt, countP_filter_window _ _ _ (by omega), List.countP_append, hcount]
    simp
  have hrate : DDoSProtection.get_request_rate_for_ip (DDoSProtection.record_request s ip t)
      ip t = 16 := by
    unfold DDoSProtection.get_request_rate_for_ip
    simp only [hlk2]
    have hw : (DDoSProtection.record_request s ip t).connection_window_seconds =
        s.connection_window_seconds := by
      unfold DDoSProtection.record_request
      rfl
    rw [hw, calculate_request_rate_eq_countP _ _ t hne2]
    exact hcnt2
  have hth1 : (DDoSProtection.record_request s ip t).threshold = 10 := by
    unfold DDoSProtection.record_request
    exact hth
  unfold DDoSProtection.check_request
  rw [if_neg he2, if_neg (by simp [hnb])]
  simp only [hrate, hth1]
  rw [if_pos (by norm_num : (10 : Nat) < 16)]
  refine ⟨rfl, rfl, ?_, ?_⟩
  · show (DDoSProtection.record_request s ip t).block_duration_seconds =
      s.block_duration_seconds
    unfold DDoSProtection.record_request
    rfl
  · show lookupKey (DDoSProtection.block_client (DDoSProtection.record_request s ip t) ip
        (DDoSProtection.record_request s ip t).block_duration_seconds t).blocked_clients ip =
      some ⟨t, t + (s.block_duration_seconds : Int) * 1000000000, "DDoS protection triggered"⟩
    have hbd : (DDoSProtection.record_request s ip t).block_duration_seconds =
        s.block_duration_seconds := by
      unfold DDoSProtection.record_request
      rfl
    unfold DDoSProtection.block_client
    rw [lookupKey_setEntry_self, hbd]

/-- C8 (witness): an enabled guard with `threshold = 10` and an IP with 15
in-window request timestamps; the next `check_request` at `now = 100` is
denied with `ATTACK_DETECTED` and installs a block expiring
`block_duration_seconds` (3600 s) later. -/
theorem C8_threshold_attack_detected_witness :
    (DDoSProtection.check_request id
        { DDoSProtection.mkDDoSProtection with
            enabled := true,
            threshold := 10,
            client_stats :=
              [("9.9.9.9", ⟨[0, 1, 2, 3, 4, 5, 6, 7, 8, 9, 10, 11, 12, 13, 14], [],
                15, 0, 0, 14, 0⟩)] } "9.9.9.9" 100).1.allowed = false ∧
    (DDoSProtection.check_request id
        { DDoSProtection.mkDDoSProtection with
            enabled := true,
            threshold := 10,
            client_stats :=
              [("9.9.9.9", ⟨[0, 1, 2, 3, 4, 5, 6, 7, 8, 9, 10, 11, 12, 13, 14], [],
                15, 0, 0, 14, 0⟩)] } "9.9.9.9" 100).1.status =
      DDoSProtection.DDoSStatus.ATTACK_DETECTED ∧
    (DDoSProtection.check_request id
        { DDoSProtection.mkDDoSProtection with
            enabled := true,
            threshold := 10,
            client_stats :=
              [("9.9.9.9", ⟨[0, 1, 2, 3, 4, 5, 6, 7, 8, 9, 10, 11, 12, 13, 14], [],
                15, 0, 0, 14, 0⟩)] } "9.9.9.9" 100).1.block_duration_seconds =
      DDoSProtection.DDoSState.block_duration_seconds
        { DDoSProtection.mkDDoSProtection with
            enabled := true,
            threshold := 10,
            client_stats :=
              [("9.9.9.9", ⟨[0, 1, 2, 3, 4, 5, 6, 7, 8, 9, 10, 11, 12, 13, 14], [],
                15, 0, 0, 14, 0⟩)] } ∧
    lookupKey
      (DDoSProtection.check_request id
          { DDoSProtection.mkDDoSProtection with
              enabled := true,
              threshold := 10,
              client_stats :=
                [("9.9.9.9", ⟨[0, 1, 2, 3, 4, 5, 6, 7, 8, 9, 10, 11, 12, 13, 14], [],
                  15, 0, 0, 14, 0⟩)] } "9.9.9.9" 100).2.blocked_clients "9.9.9.9" =
      some ⟨100, 100 +
          (DDoSProtection.DDoSState.block_duration_seconds
            { DDoSProtection.mkDDoSProtection with
                enabled := true,
                threshold := 10,
                client_stats :=
                  [("9.9.9.9", ⟨[0, 1, 2, 3, 4, 5, 6, 7, 8, 9, 10, 11, 12, 13, 14], [],
                    15, 0, 0, 14, 0⟩)] } : Int) * 1000000000,
        "DDoS protection triggered"⟩ :=
  C8_threshold_attack_detected id _ "9.9.9.9" 100
    ⟨[0, 1, 2, 3, 4, 5, 6, 7, 8, 9, 10, 11, 12, 13, 14], [], 15, 0, 0, 14, 0⟩
    rfl rfl (by decide) (by decide) (by decide)
